import Mathlib

/-!
Verification of the reactive state coordinator of the adblock-rust dashboard
(`src/lib.rs`, `src/util.rs`).

The `adblock` crate, `serde_json` and the browser APIs are external
collaborators; they are modelled as an abstract `Adapter` bundling the opaque
types and operations the coordinator consumes (the spec's EngineAdapter).
The coordinator itself — the `Model` struct, the `Msg` enum and
`Model::update` / `Model::check_network_urls` — is translated directly from
the source.  Rust panics (the `unwrap()` calls in the `LoadResourcesJson` and
`DownloadDat` arms) are modelled by `Model.update` returning `none`.

Timer behaviour (`gloo_timers::callback::Timeout`: arming, cancel-on-drop,
one-shot firing) is modelled by a surrounding system state `Sys` holding the
set of live (armed, uncancelled, unfired) timers, with fresh timer handles
drawn from a counter.
-/

/-- Opaque types and operations consumed from the external crates:
`adblock` (the EngineAdapter of the spec), `serde_json` and the byte-buffer
type of the serialized engine. -/
structure Adapter where
  ParsedFilter : Type
  FilterParseError : Type
  CbRuleEquivalent : Type
  CbRuleCreationFailure : Type
  FilterSet : Type
  Engine : Type
  FilterListMetadata : Type
  Resource : Type
  Request : Type
  RequestError : Type
  BlockerResult : Type
  UrlSpecificResources : Type
  SerializationError : Type
  JsonError : Type
  ByteBuf : Type
  /-- `adblock::lists::parse_filter` with the fixed options used by the
  dashboard (`RuleTypes::All`, `FilterFormat::Standard`, permissions 0);
  pure and stateless. -/
  parseFilter : String → Except FilterParseError ParsedFilter
  /-- `ParsedFilter::try_into()` conversion to content-blocking syntax. -/
  tryIntoCb : ParsedFilter → Except CbRuleCreationFailure CbRuleEquivalent
  /-- `adblock::lists::FilterSet::new(debug)`. -/
  filterSetNew : Bool → FilterSet
  /-- `FilterSet::add_filter_list(text, ParseOptions::default())`: returns the
  emitted list metadata together with the updated filter set. -/
  addFilterList : FilterSet → String → FilterListMetadata × FilterSet
  /-- `adblock::Engine::from_filter_set(set, optimize)`. -/
  engineFromFilterSet : FilterSet → Bool → Engine
  /-- `Engine::use_resources`: reapplies resources to the engine (the engine
  is mutated in place in Rust; modelled as returning the updated engine). -/
  useResources : Engine → List Resource → Engine
  /-- `adblock::Engine::new(optimize)`. -/
  engineNew : Bool → Engine
  /-- `adblock::request::Request::new(url, source_url, request_type)`:
  fallible construction of a network request query. -/
  requestNew : String → String → String → Except RequestError Request
  /-- `Engine::check_network_request`: read-only match decision. -/
  checkNetworkRequest : Engine → Request → BlockerResult
  /-- `Engine::url_cosmetic_resources`. -/
  urlCosmeticResources : Engine → String → UrlSpecificResources
  /-- `Engine::serialize_raw()`: fallible serialization to a byte buffer. -/
  serializeRaw : Engine → Except SerializationError ByteBuf
  /-- `serde_json::from_str::<Vec<Resource>>`: fallible parse of a
  resources JSON payload. -/
  parseResourcesJson : String → Except JsonError (List Resource)
  /-- `adblock::lists::FilterListMetadata::default()`. -/
  metadataDefault : FilterListMetadata
  /-- `FilterParseError::Empty`. -/
  filterParseErrorEmpty : FilterParseError

/-- Rust `Result::ok()`. -/
def resultOk {ε α : Type} : Except ε α → Option α
  | Except.ok a => some a
  | Except.error _ => none

/-- The `Model` struct of `src/lib.rs`: the single owned application state.
`filter_list_update_task` holds the handle of the debounce timer as a `Nat`
identifier (the `gloo_timers::callback::Timeout` handle). -/
structure Model (A : Adapter) where
  filter : String
  parse_result : Except A.FilterParseError A.ParsedFilter
  cb_result : Option (Except A.CbRuleCreationFailure A.CbRuleEquivalent)
  filter_list : String
  filter_list_update_task : Option Nat
  engine : A.Engine
  metadata : A.FilterListMetadata
  network_url : String
  network_source_url : String
  network_request_type : String
  network_result : Option (Except A.RequestError A.BlockerResult)
  cosmetic_url : String
  cosmetic_result : Option A.UrlSpecificResources
  resources : List A.Resource

/-- The `Msg` enum of `src/lib.rs`: the closed event set. -/
inductive Msg where
  | UpdateFilter (s : String)
  | UpdateFilterList (s : String)
  | FilterListTimeout
  | UpdateNetworkUrl (s : String)
  | UpdateNetworkSourceUrl (s : String)
  | UpdateNetworkRequestType (s : String)
  | UpdateCosmeticUrl (s : String)
  | LoadResourcesJson (s : String)
  | DownloadDat

/-- External effects emitted by one `update` call: timer cancellation
(dropping a `Timeout` handle cancels it), timer arming, and handing a byte
buffer to the download collaborator (`util::save_bin_file`). -/
inductive Eff (A : Adapter) where
  | cancelTimer (id : Nat)
  | armTimer (id : Nat)
  | download (name : String) (data : A.ByteBuf)

/-- `Component::create` for `Model`: the initial application state. -/
def Model.create (A : Adapter) : Model A where
  filter := ""
  parse_result := Except.error A.filterParseErrorEmpty
  cb_result := none
  filter_list := ""
  filter_list_update_task := none
  engine := A.engineNew false
  metadata := A.metadataDefault
  network_url := ""
  network_source_url := ""
  network_request_type := ""
  network_result := none
  cosmetic_url := ""
  cosmetic_result := none
  resources := []

/-- `Model::check_network_urls`, translated line for line: if all three
network fields are empty the result is `none`, otherwise the fallible
request construction is mapped through the engine's match decision. -/
def Model.check_network_urls (A : Adapter) (s : Model A) : Model A :=
  { s with network_result :=
      if s.network_url = "" ∧ s.network_source_url = "" ∧ s.network_request_type = "" then
        none
      else
        some ((A.requestNew s.network_url s.network_source_url s.network_request_type).map
          (fun request => A.checkNetworkRequest s.engine request)) }

/-- `Model::update`, translated arm by arm.  `freshId` is the handle of the
timer armed by the `UpdateFilterList` arm (fresh by construction in `stepSys`
below).  A `none` result models a Rust panic: the `unwrap()` on
`serde_json::from_str` in `LoadResourcesJson` and the `unwrap()` on
`serialize_raw` in `DownloadDat`. -/
def Model.update (A : Adapter) (s : Model A) (msg : Msg) (freshId : Nat) :
    Option (Model A × List (Eff A)) :=
  match msg with
  | Msg.UpdateFilter new_value =>
      let s1 := { s with filter := new_value }
      let s2 := { s1 with parse_result := A.parseFilter s1.filter }
      let s3 := { s2 with cb_result :=
        (resultOk (A.parseFilter s2.filter)).map (fun r => A.tryIntoCb r) }
      some (s3, [])
  | Msg.UpdateFilterList new_value =>
      let s1 := { s with filter_list := new_value }
      -- Cancel any previous timer: `self.filter_list_update_task.take()`
      -- drops the old handle, which cancels a still-pending timeout.
      let cancelled : List (Eff A) :=
        match s1.filter_list_update_task with
        | some id => [Eff.cancelTimer id]
        | none => []
      let s2 := { s1 with filter_list_update_task := none }
      -- Remove any existing block result: `self.network_result.take()`.
      let s3 := { s2 with network_result := none }
      -- Start a new debounce timeout.
      let s4 := { s3 with filter_list_update_task := some freshId }
      some (s4, cancelled ++ [Eff.armTimer freshId])
  | Msg.FilterListTimeout =>
      let filter_set := A.filterSetNew true
      let md_set := A.addFilterList filter_set s.filter_list
      let s1 := { s with metadata := md_set.1 }
      let s2 := { s1 with engine := A.engineFromFilterSet md_set.2 false }
      let s3 := { s2 with engine := A.useResources s2.engine s2.resources }
      some (Model.check_network_urls A s3, [])
  | Msg.UpdateNetworkUrl new_value =>
      some (Model.check_network_urls A { s with network_url := new_value }, [])
  | Msg.UpdateNetworkSourceUrl new_value =>
      some (Model.check_network_urls A { s with network_source_url := new_value }, [])
  | Msg.UpdateNetworkRequestType new_value =>
      some (Model.check_network_urls A { s with network_request_type := new_value }, [])
  | Msg.UpdateCosmeticUrl new_value =>
      let s1 := { s with cosmetic_url := new_value }
      let s2 := { s1 with cosmetic_result := some (A.urlCosmeticResources s1.engine s1.cosmetic_url) }
      some (s2, [])
  | Msg.LoadResourcesJson new_value =>
      match A.parseResourcesJson new_value with
      | Except.error _ => none
      | Except.ok resources =>
          let s1 := { s with resources := resources }
          some ({ s1 with engine := A.useResources s1.engine s1.resources }, [])
  | Msg.DownloadDat =>
      match A.serializeRaw s.engine with
      | Except.error _ => none
      | Except.ok data => some (s, [Eff.download "rs-ABPFilterParserData.dat" data])

/-- An effect's action on the set of live timers: cancelling erases the
timer (a no-op if it already fired), arming adds a fresh one, a download
touches no timer. -/
def applyEff (A : Adapter) (live : List Nat) : Eff A → List Nat
  | Eff.cancelTimer id => live.erase id
  | Eff.armTimer id => live ++ [id]
  | Eff.download _ _ => live

/-- The coordinator together with its timer environment: `live` is the list
of armed, uncancelled, not-yet-fired debounce timers; `nextId` supplies
fresh timer handles. -/
structure Sys (A : Adapter) where
  model : Model A
  live : List Nat
  nextId : Nat

/-- Events at the system boundary: delivery of a UI message by the event
dispatcher, or the firing of a live timer, which delivers
`Msg.FilterListTimeout` (the spec's `DebounceElapsed`). -/
inductive SysEvent where
  | deliver (m : Msg)
  | fire (id : Nat)

/-- One step of the event loop.  `none` means the event is not enabled
(firing a cancelled or already-fired timer, or externally delivering the
timeout message) or that the handler panicked. -/
def stepSys (A : Adapter) (w : Sys A) : SysEvent → Option (Sys A)
  | SysEvent.deliver m =>
      match m with
      | Msg.FilterListTimeout => none
      | m =>
          (Model.update A w.model m w.nextId).map (fun p =>
            { model := p.1, live := p.2.foldl (applyEff A) w.live, nextId := w.nextId + 1 })
  | SysEvent.fire id =>
      if id ∈ w.live then
        (Model.update A w.model Msg.FilterListTimeout w.nextId).map (fun p =>
          { model := p.1, live := p.2.foldl (applyEff A) (w.live.erase id), nextId := w.nextId })
      else none

/-- The initial system: the freshly created model and no armed timer. -/
def initSys (A : Adapter) : Sys A :=
  { model := Model.create A, live := [], nextId := 0 }

/-- States reachable from startup through enabled event-loop steps. -/
inductive Reachable (A : Adapter) : Sys A → Prop where
  | init : Reachable A (initSys A)
  | step {w : Sys A} {e : SysEvent} {w' : Sys A} :
      Reachable A w → stepSys A w e = some w' → Reachable A w'

/-- The network-query recomputation as the spec describes it: if all three
input fields are empty the result is `None`; otherwise a query object is
constructed from the three fields — construction failure yields a
`RequestError` result, success yields the engine's match decision. -/
def networkRecomputationSpec (A : Adapter) (engine : A.Engine)
    (url sourceUrl requestType : String) :
    Option (Except A.RequestError A.BlockerResult) :=
  if url = "" ∧ sourceUrl = "" ∧ requestType = "" then
    none
  else
    match A.requestNew url sourceUrl requestType with
    | Except.error e => some (Except.error e)
    | Except.ok request => some (Except.ok (A.checkNetworkRequest engine request))

/-- A concrete instantiation of the external collaborators in which every
opaque type is `Unit` and every fallible operation succeeds; used to
evaluate the coordinator on concrete inputs. -/
def UnitAdapter : Adapter where
  ParsedFilter := Unit
  FilterParseError := Unit
  CbRuleEquivalent := Unit
  CbRuleCreationFailure := Unit
  FilterSet := Unit
  Engine := Unit
  FilterListMetadata := Unit
  Resource := Unit
  Request := Unit
  RequestError := Unit
  BlockerResult := Unit
  UrlSpecificResources := Unit
  SerializationError := Unit
  JsonError := Unit
  ByteBuf := Unit
  parseFilter := fun _ => Except.ok ()
  tryIntoCb := fun _ => Except.ok ()
  filterSetNew := fun _ => ()
  addFilterList := fun _ _ => ((), ())
  engineFromFilterSet := fun _ _ => ()
  useResources := fun _ _ => ()
  engineNew := fun _ => ()
  requestNew := fun _ _ _ => Except.ok ()
  checkNetworkRequest := fun _ _ => ()
  urlCosmeticResources := fun _ _ => ()
  serializeRaw := fun _ => Except.ok ()
  parseResourcesJson := fun _ => Except.ok []
  metadataDefault := ()
  filterParseErrorEmpty := ()

/-- Like `UnitAdapter`, but the resources-JSON parse fails, as
`serde_json::from_str` does on a malformed payload. -/
def FailAdapter : Adapter :=
  { UnitAdapter with parseResourcesJson := fun _ => Except.error () }

/-- The recomputation performed by `Model::check_network_urls` agrees with
the spec's description of the network-query recomputation algorithm. -/
theorem check_network_urls_network_result (A : Adapter) (s : Model A) :
    (Model.check_network_urls A s).network_result
      = networkRecomputationSpec A s.engine s.network_url s.network_source_url
          s.network_request_type := by
  unfold Model.check_network_urls networkRecomputationSpec
  by_cases h : s.network_url = "" ∧ s.network_source_url = "" ∧ s.network_request_type = ""
  · simp [h]
  · simp only [if_neg h]
    cases A.requestNew s.network_url s.network_source_url s.network_request_type <;>
      simp [Except.map]

/-- C1: the claim requires that a resources payload that fails to parse is
handled as a recoverable error leaving `loadedResources` unchanged.  The
code instead calls `serde_json::from_str(&new_value).unwrap()`, which
panics: evaluated at a failing payload, the `LoadResourcesJson` handler
crashes (modelled as `none`) rather than producing an error value. -/
theorem C1_bad_resources_json_panics :
    Model.update FailAdapter (Model.create FailAdapter)
      (Msg.LoadResourcesJson "not valid json") 0 = none := rfl

/-- A model state holding a (stale or pending) debounce-timer handle. -/
def modelWithTimer : Model UnitAdapter :=
  { Model.create UnitAdapter with filter_list_update_task := some 0 }

/-- C3 counterexample: the claim says `DebounceElapsed` clears
`pendingRebuildToken` to `None`, but the `FilterListTimeout` arm never
touches `filter_list_update_task`: starting from a state holding handle `0`,
the handler leaves the handle in place. -/
theorem C3_counterexample :
    (Model.update UnitAdapter modelWithTimer Msg.FilterListTimeout 1).map
        (fun p => p.1.filter_list_update_task) = some (some 0) ∧
      (some 0 : Option Nat) ≠ none := by
  exact ⟨rfl, by simp⟩

/-- C3 (amended): applying `DebounceElapsed` performs the full rebuild
sequence — fresh filter set from `rawFilterListText`, new engine, captured
`listMetadata`, `loadedResources` reapplied, `networkQueryResult` recomputed
from the current inputs against the new engine — but `pendingRebuildToken`
is left unchanged, not cleared to `None`. -/
theorem C3_rebuild_full_token_unchanged (A : Adapter) (s : Model A) (freshId : Nat) :
    ∃ s', Model.update A s Msg.FilterListTimeout freshId = some (s', []) ∧
      s'.metadata = (A.addFilterList (A.filterSetNew true) s.filter_list).1 ∧
      s'.engine = A.useResources
        (A.engineFromFilterSet (A.addFilterList (A.filterSetNew true) s.filter_list).2 false)
        s.resources ∧
      s'.network_result = networkRecomputationSpec A s'.engine s.network_url
        s.network_source_url s.network_request_type ∧
      s'.filter_list_update_task = s.filter_list_update_task := by
  refine ⟨_, rfl, rfl, rfl, ?_, rfl⟩
  exact check_network_urls_network_result A _

/-- C6: each of the three network-input transitions recomputes
`networkQueryResult` by the spec's algorithm against the current engine and
the updated input fields, and the rebuild transition recomputes it against
the newly built engine. -/
theorem C6_network_recomputation (A : Adapter) (s : Model A) (v : String) (freshId : Nat) :
    (Model.update A s (Msg.UpdateNetworkUrl v) freshId).map (fun p => p.1.network_result)
      = some (networkRecomputationSpec A s.engine v s.network_source_url
          s.network_request_type) ∧
    (Model.update A s (Msg.UpdateNetworkSourceUrl v) freshId).map (fun p => p.1.network_result)
      = some (networkRecomputationSpec A s.engine s.network_url v
          s.network_request_type) ∧
    (Model.update A s (Msg.UpdateNetworkRequestType v) freshId).map (fun p => p.1.network_result)
      = some (networkRecomputationSpec A s.engine s.network_url s.network_source_url v) ∧
    (Model.update A s Msg.FilterListTimeout freshId).map (fun p => p.1.network_result)
      = some (networkRecomputationSpec A
          (A.useResources
            (A.engineFromFilterSet (A.addFilterList (A.filterSetNew true) s.filter_list).2 false)
            s.resources)
          s.network_url s.network_source_url s.network_request_type) := by
  refine ⟨?_, ?_, ?_, ?_⟩ <;>
    · show some (Model.check_network_urls A _).network_result = _
      rw [check_network_urls_network_result]

/-- C7: `FilterTextChanged(t)` sets `rawFilterText` to `t` and derives both
`parsedFilter` and `contentBlockingEquivalent` synchronously from the same
stateless parse of `t`: on success the equivalent is `Some` of the
conversion of the parsed result, on failure it is `None`. -/
theorem C7_filter_text_derived_together (A : Adapter) (s : Model A) (t : String)
    (freshId : Nat) :
    ∃ s', Model.update A s (Msg.UpdateFilter t) freshId = some (s', []) ∧
      s'.filter = t ∧
      s'.parse_result = A.parseFilter t ∧
      (∀ r, A.parseFilter t = Except.ok r → s'.cb_result = some (A.tryIntoCb r)) ∧
      (∀ e, A.parseFilter t = Except.error e → s'.cb_result = none) := by
  refine ⟨_, rfl, rfl, rfl, ?_, ?_⟩
  · intro r h
    show ((resultOk (A.parseFilter t)).map (fun r => A.tryIntoCb r)) = _
    rw [h]; rfl
  · intro e h
    show ((resultOk (A.parseFilter t)).map (fun r => A.tryIntoCb r)) = _
    rw [h]; rfl

/-- Witness for C7 at a concrete input: on the unit adapter, after
`UpdateFilter "a"` the content-blocking field holds the converted parse. -/
theorem C7_witness :
    (Model.update UnitAdapter (Model.create UnitAdapter) (Msg.UpdateFilter "a") 0).map
      (fun p => p.1.cb_result) = some (some (Except.ok ())) := by
  obtain ⟨s', hup, _, _, hok, _⟩ :=
    C7_filter_text_derived_together UnitAdapter (Model.create UnitAdapter) "a" 0
  rw [hup, Option.map_some', hok () rfl]; rfl

/-- C8: applying `FilterTextChanged(t)` twice in a row yields the same
`parsedFilter` and `contentBlockingEquivalent` (indeed the same state) as
applying it once. -/
theorem C8_filter_text_idempotent (A : Adapter) (s : Model A) (t : String) (f1 f2 : Nat) :
    ∃ s1 s2,
      Model.update A s (Msg.UpdateFilter t) f1 = some (s1, []) ∧
      Model.update A s1 (Msg.UpdateFilter t) f2 = some (s2, []) ∧
      s2.parse_result = s1.parse_result ∧ s2.cb_result = s1.cb_result ∧ s2 = s1 :=
  ⟨_, _, rfl, rfl, rfl, rfl, rfl⟩

/-- C9: `ExportRequested` serializes the current engine and hands the byte
buffer to the download collaborator, leaving the state exactly unchanged
(the successful-serialization case, the only one the `unwrap` survives). -/
theorem C9_export_pure_read (A : Adapter) (s : Model A) (freshId : Nat) (data : A.ByteBuf)
    (h : A.serializeRaw s.engine = Except.ok data) :
    Model.update A s Msg.DownloadDat freshId
      = some (s, [Eff.download "rs-ABPFilterParserData.dat" data]) := by
  simp [Model.update, h]

/-- Witness for C9 at a concrete input. -/
theorem C9_witness :
    UnitAdapter.serializeRaw (Model.create UnitAdapter).engine = Except.ok () ∧
    Model.update UnitAdapter (Model.create UnitAdapter) Msg.DownloadDat 0
      = some (Model.create UnitAdapter, [Eff.download "rs-ABPFilterParserData.dat" ()]) :=
  ⟨rfl, C9_export_pure_read UnitAdapter (Model.create UnitAdapter) 0 () rfl⟩

/-- C10: the rebuild recomputes `networkQueryResult` unconditionally from
the unchanged three input fields against the newly built engine — with no
hypothesis on the previous value of the result. -/
theorem C10_rebuild_recomputes_unconditionally (A : Adapter) (s : Model A) (freshId : Nat) :
    ∃ s', Model.update A s Msg.FilterListTimeout freshId = some (s', []) ∧
      s'.network_url = s.network_url ∧
      s'.network_source_url = s.network_source_url ∧
      s'.network_request_type = s.network_request_type ∧
      s'.engine = A.useResources
        (A.engineFromFilterSet (A.addFilterList (A.filterSetNew true) s.filter_list).2 false)
        s.resources ∧
      s'.network_result = networkRecomputationSpec A s'.engine s.network_url
        s.network_source_url s.network_request_type := by
  refine ⟨_, rfl, rfl, rfl, rfl, rfl, ?_⟩
  exact check_network_urls_network_result A _

/-- A list of length at most one whose members all equal `id` and which
contains `id` is exactly `[id]`. -/
theorem live_singleton {l : List Nat} {id : Nat} (h1 : l.length ≤ 1)
    (h2 : ∀ x ∈ l, x = id) (h3 : id ∈ l) : l = [id] := by
  cases l with
  | nil => cases h3
  | cons x xs =>
      cases xs with
      | nil => rw [h2 x (by simp)]
      | cons y ys => simp at h1

/-- If all three network fields of a state are empty, the recomputation
stores `none`. -/
theorem check_network_urls_none (A : Adapter) (s : Model A)
    (h1 : s.network_url = "") (h2 : s.network_source_url = "")
    (h3 : s.network_request_type = "") :
    (Model.check_network_urls A s).network_result = none := by
  rw [check_network_urls_network_result]
  simp [networkRecomputationSpec, h1, h2, h3]

/-- The inductive system invariant: at most one live timer; every live timer
is the one whose handle the model holds; every held handle is older than the
fresh-handle counter; and empty network fields force an empty network
result. -/
def SysInv (A : Adapter) (w : Sys A) : Prop :=
  w.live.length ≤ 1 ∧
  (∀ id, id ∈ w.live → w.model.filter_list_update_task = some id) ∧
  (∀ id, w.model.filter_list_update_task = some id → id < w.nextId) ∧
  (w.model.network_url = "" ∧ w.model.network_source_url = "" ∧
      w.model.network_request_type = "" →
    w.model.network_result = none)

/-- The initial system satisfies the invariant. -/
theorem sysInv_init (A : Adapter) : SysInv A (initSys A) := by
  refine ⟨by simp [initSys], ?_, ?_, ?_⟩ <;> simp [initSys, Model.create]

/-- Every enabled event-loop step preserves the invariant. -/
theorem sysInv_step (A : Adapter) {w w' : Sys A} {e : SysEvent}
    (hinv : SysInv A w) (hstep : stepSys A w e = some w') : SysInv A w' := by
  obtain ⟨hlen, hmem, hlt, hnet⟩ := hinv
  cases e with
  | fire id =>
      simp only [stepSys] at hstep
      split at hstep
      · simp only [Model.update, Option.map_some', Option.some.injEq] at hstep
        subst hstep
        refine ⟨?_, ?_, ?_, ?_⟩
        · exact le_trans ((List.erase_sublist id w.live).length_le) hlen
        · intro x hx
          exact hmem x (List.mem_of_mem_erase (by simpa using hx))
        · exact hlt
        · intro hfields
          exact check_network_urls_none A _ hfields.1 hfields.2.1 hfields.2.2
      · cases hstep
  | deliver m =>
      cases m with
      | UpdateFilter v =>
          simp only [stepSys, Model.update, Option.map_some', Option.some.injEq] at hstep
          subst hstep
          exact ⟨hlen, hmem, fun id h => Nat.lt_succ_of_lt (hlt id h), hnet⟩
      | UpdateFilterList v =>
          rcases htask : w.model.filter_list_update_task with _ | oldId <;>
            simp only [stepSys, Model.update, htask, Option.map_some',
              Option.some.injEq] at hstep <;> subst hstep
          · have hnil : w.live = [] := by
              rw [List.eq_nil_iff_forall_not_mem]
              intro x hx
              have := hmem x hx
              rw [htask] at this
              cases this
            refine ⟨?_, ?_, ?_, ?_⟩
            · simp [applyEff, hnil]
            · intro id hid
              simp [applyEff, hnil] at hid
              simp [hid]
            · intro id hid
              simp at hid
              simp [hid]
            · intro _; rfl
          · have herase : w.live.erase oldId = [] := by
              by_cases hmemOld : oldId ∈ w.live
              · have : w.live = [oldId] := by
                  refine live_singleton hlen ?_ hmemOld
                  intro x hx
                  have := hmem x hx
                  rw [htask] at this
                  exact (Option.some.injEq _ _).mp this.symm
                rw [this]
                simp
              · rw [List.erase_of_not_mem hmemOld]
                rw [List.eq_nil_iff_forall_not_mem]
                intro x hx
                have := hmem x hx
                rw [htask] at this
                have hx_eq : x = oldId := by
                  exact ((Option.some.injEq _ _).mp this.symm)
                exact hmemOld (hx_eq ▸ hx)
            refine ⟨?_, ?_, ?_, ?_⟩
            · simp [applyEff, herase]
            · intro id hid
              simp [applyEff, herase] at hid
              simp [hid]
            · intro id hid
              simp at hid
              simp [hid]
            · intro _; rfl
      | FilterListTimeout => cases hstep
      | UpdateNetworkUrl v =>
          simp only [stepSys, Model.update, Option.map_some', Option.some.injEq] at hstep
          subst hstep
          refine ⟨hlen, hmem, fun id h => Nat.lt_succ_of_lt (hlt id h), ?_⟩
          intro hfields
          exact check_network_urls_none A _ hfields.1 hfields.2.1 hfields.2.2
      | UpdateNetworkSourceUrl v =>
          simp only [stepSys, Model.update, Option.map_some', Option.some.injEq] at hstep
          subst hstep
          refine ⟨hlen, hmem, fun id h => Nat.lt_succ_of_lt (hlt id h), ?_⟩
          intro hfields
          exact check_network_urls_none A _ hfields.1 hfields.2.1 hfields.2.2
      | UpdateNetworkRequestType v =>
          simp only [stepSys, Model.update, Option.map_some', Option.some.injEq] at hstep
          subst hstep
          refine ⟨hlen, hmem, fun id h => Nat.lt_succ_of_lt (hlt id h), ?_⟩
          intro hfields
          exact check_network_urls_none A _ hfields.1 hfields.2.1 hfields.2.2
      | UpdateCosmeticUrl v =>
          simp only [stepSys, Model.update, Option.map_some', Option.some.injEq] at hstep
          subst hstep
          exact ⟨hlen, hmem, fun id h => Nat.lt_succ_of_lt (hlt id h), hnet⟩
      | LoadResourcesJson v =>
          rcases hres : A.parseResourcesJson v with _ | rs
          · simp only [stepSys, Model.update, hres, Option.map_none'] at hstep
            cases hstep
          · simp only [stepSys, Model.update, hres, Option.map_some',
              Option.some.injEq] at hstep
            subst hstep
            exact ⟨hlen, hmem, fun id h => Nat.lt_succ_of_lt (hlt id h), hnet⟩
      | DownloadDat =>
          rcases hser : A.serializeRaw w.model.engine with _ | d
          · simp only [stepSys, Model.update, hser, Option.map_none'] at hstep
            cases hstep
          · simp only [stepSys, Model.update, hser, Option.map_some',
              Option.some.injEq] at hstep
            subst hstep
            exact ⟨hlen, hmem, fun id h => Nat.lt_succ_of_lt (hlt id h), hnet⟩

/-- Every reachable system state satisfies the invariant. -/
theorem reachable_inv (A : Adapter) {w : Sys A} (h : Reachable A w) : SysInv A w := by
  induction h with
  | init => exact sysInv_init A
  | step _ hs ih => exact sysInv_step A ih hs

/-- The system state after delivering `UpdateNetworkUrl "x"` at startup. -/
def sysNetX : Sys UnitAdapter :=
  { model := { Model.create UnitAdapter with
      network_url := "x", network_result := some (Except.ok ()) },
    live := [], nextId := 1 }

/-- The system state after then delivering `UpdateFilterList "y"`: the
network result has been cleared while the network URL field is still
non-empty. -/
def sysNetXList : Sys UnitAdapter :=
  { model := { Model.create UnitAdapter with
      network_url := "x", filter_list := "y",
      filter_list_update_task := some 1, network_result := none },
    live := [1], nextId := 2 }

/-- C2 counterexample: the claimed iff fails after `FilterListTextChanged`.
Delivering `UpdateNetworkUrl "x"` and then `UpdateFilterList "y"` from
startup reaches a state whose `networkQueryResult` is `None` while the
network URL field is non-empty. -/
theorem C2_counterexample :
    Reachable UnitAdapter sysNetXList ∧
    sysNetXList.model.network_result = none ∧
    sysNetXList.model.network_url ≠ "" := by
  have h1 : stepSys UnitAdapter (initSys UnitAdapter)
      (SysEvent.deliver (Msg.UpdateNetworkUrl "x")) = some sysNetX := rfl
  have h2 : stepSys UnitAdapter sysNetX
      (SysEvent.deliver (Msg.UpdateFilterList "y")) = some sysNetXList := rfl
  exact ⟨Reachable.step (Reachable.step Reachable.init h1) h2, rfl, by decide⟩

/-- C2 (amended): in every reachable state only the forward direction of I2
holds: if all three network-query input fields are empty strings then
`networkQueryResult` is `None`.  The converse direction fails, because
`FilterListTextChanged` clears the result to `None` while leaving the
(possibly non-empty) input fields in place. -/
theorem C2_empty_fields_give_none (A : Adapter) (w : Sys A) (h : Reachable A w)
    (hu : w.model.network_url = "") (hsrc : w.model.network_source_url = "")
    (ht : w.model.network_request_type = "") :
    w.model.network_result = none :=
  (reachable_inv A h).2.2.2 ⟨hu, hsrc, ht⟩

/-- Witness for the amended C2 at the initial state. -/
theorem C2_witness :
    (initSys UnitAdapter).model.network_url = "" ∧
    (initSys UnitAdapter).model.network_source_url = "" ∧
    (initSys UnitAdapter).model.network_request_type = "" ∧
    (initSys UnitAdapter).model.network_result = none :=
  ⟨rfl, rfl, rfl,
    C2_empty_fields_give_none UnitAdapter (initSys UnitAdapter) Reachable.init rfl rfl rfl⟩

/-- C5: in every reachable state at most one debounce timer is live, and a
live timer is permanently disabled by a superseding `FilterListTextChanged`:
after the superseding event it is no longer in the live set, so its firing —
the only way a `DebounceElapsed` is delivered — is not an enabled step. -/
theorem C5_single_timer_no_stale_fire (A : Adapter) (w : Sys A) (h : Reachable A w) :
    w.live.length ≤ 1 ∧
    ∀ id, id ∈ w.live → ∀ t w',
      stepSys A w (SysEvent.deliver (Msg.UpdateFilterList t)) = some w' →
      id ∉ w'.live ∧ stepSys A w' (SysEvent.fire id) = none := by
  obtain ⟨hlen, hmem, hlt, _⟩ := reachable_inv A h
  refine ⟨hlen, ?_⟩
  intro id hid t w' hstep
  have htask : w.model.filter_list_update_task = some id := hmem id hid
  have hltid : id < w.nextId := hlt id htask
  have hsingle : w.live = [id] := by
    refine live_singleton hlen ?_ hid
    intro x hx
    have := hmem x hx
    rw [htask] at this
    exact ((Option.some.injEq _ _).mp this.symm)
  simp only [stepSys, Model.update, htask, Option.map_some', Option.some.injEq] at hstep
  subst hstep
  have hlive : (List.foldl (applyEff A) w.live
      ([Eff.cancelTimer id] ++ [Eff.armTimer w.nextId])) = [w.nextId] := by
    simp [applyEff, hsingle]
  constructor
  · show id ∉ List.foldl (applyEff A) w.live _
    rw [hlive]
    simp
    exact Nat.ne_of_lt hltid
  · show stepSys A _ (SysEvent.fire id) = none
    simp only [stepSys]
    rw [if_neg]
    rw [hlive]
    simp
    exact Nat.ne_of_lt hltid

/-- The system state after a second `UpdateFilterList` supersedes the timer
armed in `sysNetXList`. -/
def sysSuperseded : Sys UnitAdapter :=
  { model := { Model.create UnitAdapter with
      network_url := "x", filter_list := "z",
      filter_list_update_task := some 2, network_result := none },
    live := [2], nextId := 3 }

/-- Witness for C5: timer `1`, live in the reachable state `sysNetXList`, is
not live after `UpdateFilterList "z"` supersedes it, and firing it is no
longer an enabled step. -/
theorem C5_witness :
    1 ∉ sysSuperseded.live ∧
    stepSys UnitAdapter sysSuperseded (SysEvent.fire 1) = none := by
  have h1 : stepSys UnitAdapter (initSys UnitAdapter)
      (SysEvent.deliver (Msg.UpdateNetworkUrl "x")) = some sysNetX := rfl
  have h2 : stepSys UnitAdapter sysNetX
      (SysEvent.deliver (Msg.UpdateFilterList "y")) = some sysNetXList := rfl
  have h3 : stepSys UnitAdapter sysNetXList
      (SysEvent.deliver (Msg.UpdateFilterList "z")) = some sysSuperseded := rfl
  exact (C5_single_timer_no_stale_fire UnitAdapter sysNetXList
      (Reachable.step (Reachable.step Reachable.init h1) h2)).2
    1 (by decide) "z" sysSuperseded h3
